import Mathlib

/-!
Verification of the threat-aggregation core of the cyber-threat-ai-agent
backend (`src/backend/server.js`, with helpers from `src/backend/db-functions.js`
and `analysis-transformer.js`).

The embedding models:
  * the in-memory attack tracker and `manageDefenseRules` (rule engine),
  * the `/reanalyze/rules` endpoint: partition of historical flows against the
    currently active defense rules, batched re-prediction, and result assembly,
  * the per-row prediction assignment of the `/analyze/csv` and `/analyze/api`
    ingestion endpoints.

JavaScript-specific conventions used throughout:
  * a possibly-absent string field is `Option String`; the empty string and
    `none` are both "falsy" (helper `truthy`),
  * timestamps are integer milliseconds (`Int`); `new Date(s).getTime()` is an
    abstract parse function `String → Option Int` (`none` = `NaN`),
  * the tracker object `RECENT_ATTACK_TRACKER` is a total map
    `String → List Int`, an absent key being the empty list (the code
    initialises absent keys to `[]` before use, and `delete` is modelled as
    setting the key back to `[]`),
  * database calls are modelled by their observable outcomes: the rule store is
    a `List StoredRule`, and the two fallible calls of the rule engine carry
    explicit failure flags.
-/

/-- `THRESHOLD_COUNT` from server.js (N detections required to create a rule). -/
def THRESHOLD_COUNT : Nat := 50

/-- `THRESHOLD_WINDOW_MS` from server.js (10 second window, in milliseconds). -/
def THRESHOLD_WINDOW_MS : Int := 10000

/-- `RULE_EXPIRATION_MINUTES` from server.js (rule blocks for 1 hour). -/
def RULE_EXPIRATION_MINUTES : Int := 60

/-- `DIAGNOSTIC_FORCE_ATTACK` from server.js (false in the shipped code). -/
def DIAGNOSTIC_FORCE_ATTACK : Bool := false

/-- `BATCH_SIZE` used by every batched loop in server.js. -/
def BATCH_SIZE : Nat := 100

/-- JavaScript truthiness for an optional string: `none` (absent/null/undefined)
and the empty string are falsy. -/
def truthy (o : Option String) : Option String :=
  match o with
  | some s => if s = "" then none else some s
  | none => none

/-- An ingestion row as seen by `manageDefenseRules`: only the fields the rule
engine reads. `Timestamp` and `createdAt` mirror the alternative spellings the
code probes for the flow time. -/
structure FlowRow where
  src_ip : Option String := none
  dst_ip : Option String := none
  flow_id : Option String := none
  timestamp : Option String := none
  created_at : Option String := none
  Timestamp : Option String := none
  createdAt : Option String := none
deriving DecidableEq, Repr

/-- `row.src_ip || row.dst_ip` (server.js line 57). -/
def ipAddressOf (row : FlowRow) : Option String :=
  match truthy row.src_ip with
  | some s => some s
  | none => truthy row.dst_ip

/-- `row.flow_id || 'N/A'` (server.js line 59). -/
def flowIdOf (row : FlowRow) : String :=
  (truthy row.flow_id).getD "N/A"

/-- The ordered candidate time fields of server.js line 62:
`[row.timestamp, row.created_at, row.Timestamp, row.createdAt]`. -/
def timeFields (row : FlowRow) : List (Option String) :=
  [row.timestamp, row.created_at, row.Timestamp, row.createdAt]

/-- The time-extraction loop of server.js lines 63-72: the first truthy field
whose parse is not `NaN` wins; a truthy but unparseable field falls through to
the next candidate. -/
def extractFlowTime (parse : String → Option Int) : List (Option String) → Option Int
  | [] => none
  | none :: rest => extractFlowTime parse rest
  | some s :: rest =>
    if s = "" then extractFlowTime parse rest
    else
      match parse s with
      | some t => some t
      | none => extractFlowTime parse rest

/-- Resolved flow time of a row (server.js lines 61-72). -/
def flowTimeOf (parse : String → Option Int) (row : FlowRow) : Option Int :=
  extractFlowTime parse (timeFields row)

/-- The tracker update of server.js lines 84-88: keep the previously retained
timestamps within the window of (and not after) the new event, then append the
new event time. -/
def recordEvent (prev : List Int) (flowTime : Int) : List Int :=
  (prev.filter fun t =>
    decide (flowTime - t ≤ THRESHOLD_WINDOW_MS) && decide (0 ≤ flowTime - t)) ++ [flowTime]

/-- Assignment `RECENT_ATTACK_TRACKER[ip] = v` on the tracker map. -/
def setKey (tracker : String → List Int) (ip : String) (v : List Int) :
    String → List Int :=
  fun k => if k = ip then v else tracker k

/-- A row of the `defense_rules` table, restricted to the columns this core
reads back (`ip_address`, `is_active`, `expires_at`). -/
structure StoredRule where
  ip_address : String
  is_active : Bool
  expires_at : Int
deriving DecidableEq, Repr

/-- The rule object built by server.js lines 123-130 (`raw_flow_data` flattened
into its two components). -/
structure RuleToInsert where
  ip_address : String
  threat_type : String
  expires_at : Int
  is_active : Bool
  analysis_id : String
  trigger_flow_id : String
  threat_count : Nat
deriving DecidableEq, Repr

/-- Observable outcome of one `manageDefenseRules` call: the tracker after the
call, whether a rule was created, and the rule whose insertion was attempted
(if any). -/
structure MDROutcome where
  tracker : String → List Int
  created : Bool
  attempted : Option RuleToInsert

/-- Body of `manageDefenseRules` after the ip/time resolution succeeded
(server.js lines 79-151). `checkFails` covers both the thrown exception and the
`rulesError` result of the existence query (lines 108-116); `insertFails` is a
non-null `insertError` (lines 140-146). The existence query (lines 100-104)
matches on `ip_address` only. -/
def manageDefenseRulesCore (tracker : String → List Int) (store : List StoredRule)
    (checkFails insertFails : Bool) (ipAddress flowId prediction jobId : String)
    (currentTime flowTime : Int) : MDROutcome :=
  let recentDetections := recordEvent (tracker ipAddress) flowTime
  let tracker1 := setKey tracker ipAddress recentDetections
  if THRESHOLD_COUNT ≤ recentDetections.length then
    if checkFails then ⟨tracker1, false, none⟩
    else if ((store.filter fun r => decide (r.ip_address = ipAddress)).take 1).isEmpty then
      let ruleToInsert : RuleToInsert :=
        { ip_address := ipAddress
          threat_type := prediction
          expires_at := currentTime + RULE_EXPIRATION_MINUTES * 60 * 1000
          is_active := true
          analysis_id := jobId
          trigger_flow_id := flowId
          threat_count := recentDetections.length }
      if insertFails then ⟨tracker1, false, some ruleToInsert⟩
      else ⟨setKey tracker1 ipAddress [], true, some ruleToInsert⟩
    else ⟨tracker1, false, none⟩
  else ⟨tracker1, false, none⟩

/-- `manageDefenseRules` (server.js lines 56-152): resolve the source key and
the flow time, abort without touching the tracker if either fails or the key is
`'UNKNOWN'`, otherwise run the aggregation/threshold/creation logic. -/
def manageDefenseRules (parse : String → Option Int) (tracker : String → List Int)
    (store : List StoredRule) (checkFails insertFails : Bool) (row : FlowRow)
    (prediction jobId : String) (currentTime : Int) : MDROutcome :=
  match ipAddressOf row, flowTimeOf parse row with
  | some ipAddress, some flowTime =>
    if ipAddress = "UNKNOWN" then ⟨tracker, false, none⟩
    else
      manageDefenseRulesCore tracker store checkFails insertFails ipAddress
        (flowIdOf row) prediction jobId currentTime flowTime
  | some _, none => ⟨tracker, false, none⟩
  | none, _ => ⟨tracker, false, none⟩

theorem manageDefenseRules_resolved (parse : String → Option Int)
    (tracker : String → List Int) (store : List StoredRule)
    (checkFails insertFails : Bool) (row : FlowRow) (prediction jobId : String)
    (currentTime : Int) (ip : String) (t : Int)
    (hip : ipAddressOf row = some ip) (hunk : ip ≠ "UNKNOWN")
    (ht : flowTimeOf parse row = some t) :
    manageDefenseRules parse tracker store checkFails insertFails row prediction
        jobId currentTime
      = manageDefenseRulesCore tracker store checkFails insertFails ip
          (flowIdOf row) prediction jobId currentTime t := by
  unfold manageDefenseRules
  rw [hip, ht]
  simp [hunk]

/-- C7: the tracker record operation retains exactly the previous timestamps
that are neither older than the window nor in the future relative to the event
time, together with the new event time; the count the engine goes on to use is
the length of that sequence. -/
theorem tracker_record_window (prev : List Int) (ft : Int) :
    (recordEvent prev ft).Perm
      (ft :: prev.filter fun t =>
        !(decide (THRESHOLD_WINDOW_MS < ft - t) || decide (ft - t < 0)))
    ∧ (recordEvent prev ft).length
      = (prev.filter fun t =>
          !(decide (THRESHOLD_WINDOW_MS < ft - t) || decide (ft - t < 0))).length + 1 := by
  have hfun : (fun t =>
      decide (ft - t ≤ THRESHOLD_WINDOW_MS) && decide (0 ≤ ft - t))
      = fun t => !(decide (THRESHOLD_WINDOW_MS < ft - t) || decide (ft - t < 0)) := by
    funext t
    by_cases h1 : ft - t ≤ THRESHOLD_WINDOW_MS <;> by_cases h2 : 0 ≤ ft - t <;>
      simp [h1, h2] <;> omega
  constructor
  · rw [recordEvent, hfun]
    exact List.perm_append_singleton ft _
  · rw [recordEvent, hfun]
    simp

/-- A historical flow row from the `analysis_results` table, restricted to the
fields the re-analysis endpoint reads, plus the two label fields it writes. -/
structure HFlow where
  src_ip : Option String := none
  dst_ip : Option String := none
  prediction : Option String := none
  original_prediction : Option String := none
  analysis_id : Option String := none
  created_at : Option String := none
deriving DecidableEq, Repr

/-- The active-rule query of server.js lines 486-490:
`is_active = true` and `expires_at` strictly in the future of `now`. -/
def activeRules (rules : List StoredRule) (now : Int) : List StoredRule :=
  rules.filter fun r => r.is_active && decide (now < r.expires_at)

/-- Lookup in `blockedIpMap` (server.js lines 494-502, 517-518): an entry
exists for an optional address iff some currently active rule carries it. -/
def hasRuleFor (rules : List StoredRule) (now : Int) (ip : Option String) : Bool :=
  match ip with
  | some s => (activeRules rules now).any fun r => decide (r.ip_address = s)
  | none => false

/-- `String.prototype.toLowerCase`, modelled character-wise (the labels of this
system are ASCII). -/
def jsToLower (s : String) : String := ⟨s.data.map Char.toLower⟩

/-- `row.prediction ? row.prediction.toLowerCase() : 'error'`
(server.js line 515). -/
def originalPredictionOf (row : HFlow) : String :=
  match truthy row.prediction with
  | some s => jsToLower s
  | none => "error"

/-- `isBlockedByPolicy` (server.js lines 517-525). The temporal check
`ruleWasActiveAtFlowTime` is the literal constant `true` in the code
(line 522), so the flow's own timestamp plays no part. -/
def isBlockedByPolicy (rules : List StoredRule) (now : Int) (row : HFlow) : Bool :=
  (hasRuleFor rules now row.src_ip || hasRuleFor rules now row.dst_ip)
    && true
    && !(decide (originalPredictionOf row = "benign"))
    && !(decide (originalPredictionOf row = "error"))

/-- The label rewrite applied to a blocked flow (server.js lines 529-533). -/
def markBlocked (row : HFlow) : HFlow :=
  { row with prediction := some "Rule_Blocked_Historical" }

/-- The partition loop of server.js lines 509-538: first component is
`flowsToReanalyze`, second is `blockedFlows`, both in input order. -/
def partitionFlows (rules : List StoredRule) (now : Int) :
    List HFlow → List HFlow × List HFlow
  | [] => ([], [])
  | row :: rest =>
    let parts := partitionFlows rules now rest
    if isBlockedByPolicy rules now row then (parts.1, markBlocked row :: parts.2)
    else (row :: parts.1, parts.2)

theorem partitionFlows_eq_filter (rules : List StoredRule) (now : Int)
    (hist : List HFlow) :
    partitionFlows rules now hist
      = (hist.filter (fun r => !(isBlockedByPolicy rules now r)),
         (hist.filter fun r => isBlockedByPolicy rules now r).map markBlocked) := by
  induction hist with
  | nil => rfl
  | cons row rest ih =>
    by_cases h : isBlockedByPolicy rules now row <;>
      simp [partitionFlows, List.filter_cons, h, ih]

theorem isBlockedByPolicy_false_of_benign_or_error (rules : List StoredRule)
    (now : Int) (row : HFlow)
    (h : originalPredictionOf row = "benign" ∨ originalPredictionOf row = "error") :
    isBlockedByPolicy rules now row = false := by
  rcases h with h | h <;> simp [isBlockedByPolicy, h]

/-- C2: a historical flow lands in the blocked set exactly when a currently
active rule matches its source or destination address and its original label is
neither "benign" nor "error"; benign- and error-labelled flows are always
admitted, and the decision ignores the flow's own timestamp. -/
theorem reanalysis_block_decision (rules : List StoredRule) (now : Int) (row : HFlow) :
    (isBlockedByPolicy rules now row = true ↔
      ((hasRuleFor rules now row.src_ip = true ∨ hasRuleFor rules now row.dst_ip = true)
        ∧ originalPredictionOf row ≠ "benign" ∧ originalPredictionOf row ≠ "error"))
    ∧ ((originalPredictionOf row = "benign" ∨ originalPredictionOf row = "error") →
        isBlockedByPolicy rules now row = false)
    ∧ (∀ t : Option String,
        isBlockedByPolicy rules now { row with created_at := t }
          = isBlockedByPolicy rules now row)
    ∧ (∀ hist : List HFlow, row ∈ hist →
        (isBlockedByPolicy rules now row = true →
          markBlocked row ∈ (partitionFlows rules now hist).2)
        ∧ (isBlockedByPolicy rules now row = false →
          row ∈ (partitionFlows rules now hist).1)) := by
  refine ⟨?_, isBlockedByPolicy_false_of_benign_or_error rules now row, ?_, ?_⟩
  · simp [isBlockedByPolicy, and_assoc]
  · intro t
    simp [isBlockedByPolicy, hasRuleFor, originalPredictionOf]
  · intro hist hmem
    constructor
    · intro hb
      rw [partitionFlows_eq_filter]
      exact List.mem_map_of_mem markBlocked (List.mem_filter.mpr ⟨hmem, hb⟩)
    · intro hb
      rw [partitionFlows_eq_filter]
      exact List.mem_filter.mpr ⟨hmem, by simp [hb]⟩

/-- C2 witness: a concrete benign-labelled flow whose source address carries an
active rule is still not blocked. -/
theorem reanalysis_block_decision_witness :
    isBlockedByPolicy [⟨"9.9.9.9", true, 100⟩] 0
        { src_ip := some "9.9.9.9", prediction := some "benign" } = false :=
  (reanalysis_block_decision [⟨"9.9.9.9", true, 100⟩] 0
      { src_ip := some "9.9.9.9", prediction := some "benign" }).2.1
    (Or.inl (by decide))

/-- C3: the partition assigns every historical flow to exactly one of the two
output lists: the admitted list is the sub-list of non-blocked flows, the
blocked list is the sub-list of blocked flows (relabelled), and the lengths add
up to the input length. -/
theorem reanalysis_partition_exhaustive (rules : List StoredRule) (now : Int)
    (hist : List HFlow) :
    (partitionFlows rules now hist).1.length
        + (partitionFlows rules now hist).2.length = hist.length
    ∧ (partitionFlows rules now hist).1
        = hist.filter (fun r => !(isBlockedByPolicy rules now r))
    ∧ (partitionFlows rules now hist).2
        = (hist.filter fun r => isBlockedByPolicy rules now r).map markBlocked := by
  rw [partitionFlows_eq_filter]
  refine ⟨?_, rfl, rfl⟩
  have h := List.length_eq_length_filter_add (l := hist)
    (fun r => isBlockedByPolicy rules now r)
  simp only [List.length_map]
  omega

/-- C9: the original-label test of the partition is total on missing data and
case-insensitive: a missing prediction is treated as the label "error", a
non-empty prediction is lower-cased, and any flow whose stored prediction is
absent or any letter-casing of "benign" or "error" is never blocked. -/
theorem reanalysis_label_case_insensitive (rules : List StoredRule) (now : Int)
    (row : HFlow) :
    (row.prediction = none → originalPredictionOf row = "error")
    ∧ (∀ s : String, row.prediction = some s → s ≠ "" →
        originalPredictionOf row = jsToLower s)
    ∧ ((row.prediction = none ∨
        ∃ s : String, row.prediction = some s
          ∧ (jsToLower s = "benign" ∨ jsToLower s = "error")) →
        isBlockedByPolicy rules now row = false) := by
  refine ⟨?_, ?_, ?_⟩
  · intro h
    simp [originalPredictionOf, truthy, h]
  · intro s hs hne
    simp [originalPredictionOf, truthy, hs, hne]
  · intro h
    apply isBlockedByPolicy_false_of_benign_or_error
    rcases h with h | ⟨s, hs, hlow⟩
    · right
      simp [originalPredictionOf, truthy, h]
    · have hne : s ≠ "" := by
        intro he
        subst he
        revert hlow
        decide
      rcases hlow with hlow | hlow
      · left
        simp [originalPredictionOf, truthy, hs, hne, hlow]
      · right
        simp [originalPredictionOf, truthy, hs, hne, hlow]

/-- C9 witness: with an active rule on the address, a flow labelled "Benign"
and a flow with a missing label are both left unblocked. -/
theorem reanalysis_label_case_insensitive_witness :
    isBlockedByPolicy [⟨"8.8.8.8", true, 100⟩] 0
        { src_ip := some "8.8.8.8", prediction := some "Benign" } = false
    ∧ isBlockedByPolicy [⟨"8.8.8.8", true, 100⟩] 0
        { src_ip := some "8.8.8.8", prediction := none } = false :=
  ⟨(reanalysis_label_case_insensitive [⟨"8.8.8.8", true, 100⟩] 0
      { src_ip := some "8.8.8.8", prediction := some "Benign" }).2.2
      (Or.inr ⟨"Benign", rfl, Or.inl (by decide : jsToLower "Benign" = "benign")⟩),
   (reanalysis_label_case_insensitive [⟨"8.8.8.8", true, 100⟩] 0
      { src_ip := some "8.8.8.8", prediction := none }).2.2 (Or.inl rfl)⟩

/-- `predictions[index] || 'Error'`: the label selection of both ingestion
endpoints (server.js lines 262 and 352). The gateway's `predictions` array is a
list of possibly-null strings; an out-of-range index, a null entry and an empty
string all yield the literal label "Error". -/
def predictionAt (predictions : List (Option String)) (index : Nat) : String :=
  match predictions[index]? with
  | some (some s) => if s = "" then "Error" else s
  | some none => "Error"
  | none => "Error"

/-- The per-row prediction of the `/analyze/csv` batch loop (server.js lines
262-267), including the `DIAGNOSTIC_FORCE_ATTACK` override branch. -/
def csvRowPrediction (predictions : List (Option String)) (index : Nat) : String :=
  if DIAGNOSTIC_FORCE_ATTACK && decide (index = 0) then "Forced_DDoS_Test"
  else predictionAt predictions index

/-- The guard of server.js line 276: `/analyze/csv` calls `manageDefenseRules`
for a row iff its prediction is neither "benign" nor "Error". -/
def csvSubmitsToDefense (predictions : List (Option String)) (index : Nat) : Bool :=
  !(decide (csvRowPrediction predictions index = "benign"))
    && !(decide (csvRowPrediction predictions index = "Error"))

/-- The per-row prediction of the `/analyze/api` batch loop (server.js lines
352-356); textually identical to the CSV path. -/
def apiRowPrediction (predictions : List (Option String)) (index : Nat) : String :=
  if DIAGNOSTIC_FORCE_ATTACK && decide (index = 0) then "Forced_DDoS_Test"
  else predictionAt predictions index

/-- The guard of server.js line 365 for the `/analyze/api` path. -/
def apiSubmitsToDefense (predictions : List (Option String)) (index : Nat) : Bool :=
  !(decide (apiRowPrediction predictions index = "benign"))
    && !(decide (apiRowPrediction predictions index = "Error"))

/-- C10: in both ingestion paths, a row whose position exceeds the gateway's
label list, or whose label is null or empty, receives the literal prediction
"Error"; and a row whose prediction is "Error" is never submitted to
defense-rule evaluation. -/
theorem ingestion_error_label (predictions : List (Option String)) (index : Nat) :
    ((predictions.length ≤ index ∨ predictions[index]? = some none
        ∨ predictions[index]? = some (some "")) →
      csvRowPrediction predictions index = "Error"
        ∧ apiRowPrediction predictions index = "Error")
    ∧ (csvRowPrediction predictions index = "Error" →
        csvSubmitsToDefense predictions index = false)
    ∧ (apiRowPrediction predictions index = "Error" →
        apiSubmitsToDefense predictions index = false) := by
  refine ⟨?_, ?_, ?_⟩
  · intro h
    have hval : predictionAt predictions index = "Error" := by
      rcases h with h | h | h
      · have : predictions[index]? = none := List.getElem?_eq_none h
        simp [predictionAt, this]
      · simp [predictionAt, h]
      · simp [predictionAt, h]
    constructor
    · simp [csvRowPrediction, DIAGNOSTIC_FORCE_ATTACK, hval]
    · simp [apiRowPrediction, DIAGNOSTIC_FORCE_ATTACK, hval]
  · intro h
    simp [csvSubmitsToDefense, h]
  · intro h
    simp [apiSubmitsToDefense, h]

/-- C10 witness: with a single empty-string label, row 0 is labelled "Error" in
both paths and is not submitted to defense-rule evaluation; row 1 (past the end
of the label list) likewise. -/
theorem ingestion_error_label_witness :
    (csvRowPrediction [some ""] 0 = "Error" ∧ apiRowPrediction [some ""] 0 = "Error")
    ∧ csvSubmitsToDefense [some ""] 1 = false := by
  refine ⟨(ingestion_error_label [some ""] 0).1 (Or.inr (Or.inr rfl)), ?_⟩
  exact (ingestion_error_label [some ""] 1).2.1
    ((ingestion_error_label [some ""] 1).1 (Or.inl (by decide))).1

theorem take_one_isEmpty_iff (l : List StoredRule) : (l.take 1).isEmpty = true ↔ l = [] := by
  cases l <;> simp

theorem core_skip_of_existing (tracker : String → List Int) (store : List StoredRule)
    (insf : Bool) (ip fid pred job : String) (now t : Int)
    (hth : THRESHOLD_COUNT ≤ (recordEvent (tracker ip) t).length)
    (hex : ∃ r ∈ store, r.ip_address = ip) :
    manageDefenseRulesCore tracker store false insf ip fid pred job now t
      = ⟨setKey tracker ip (recordEvent (tracker ip) t), false, none⟩ := by
  have hfil : ¬ ((store.filter fun r => decide (r.ip_address = ip)).take 1).isEmpty = true := by
    rw [take_one_isEmpty_iff, List.filter_eq_nil_iff]
    intro hall
    obtain ⟨r, hr, hrip⟩ := hex
    exact hall r hr (by simp [hrip])
  simp only [manageDefenseRulesCore, if_pos hth, if_neg hfil, Bool.false_eq_true, if_false]

theorem core_create_of_no_rule (tracker : String → List Int) (store : List StoredRule)
    (insf : Bool) (ip fid pred job : String) (now t : Int)
    (hth : THRESHOLD_COUNT ≤ (recordEvent (tracker ip) t).length)
    (hnone : ∀ r ∈ store, r.ip_address ≠ ip) :
    manageDefenseRulesCore tracker store false insf ip fid pred job now t
      = (if insf then
          ⟨setKey tracker ip (recordEvent (tracker ip) t), false,
            some { ip_address := ip, threat_type := pred,
                   expires_at := now + RULE_EXPIRATION_MINUTES * 60 * 1000,
                   is_active := true, analysis_id := job, trigger_flow_id := fid,
                   threat_count := (recordEvent (tracker ip) t).length }⟩
         else
          ⟨setKey (setKey tracker ip (recordEvent (tracker ip) t)) ip [], true,
            some { ip_address := ip, threat_type := pred,
                   expires_at := now + RULE_EXPIRATION_MINUTES * 60 * 1000,
                   is_active := true, analysis_id := job, trigger_flow_id := fid,
                   threat_count := (recordEvent (tracker ip) t).length }⟩) := by
  have hfil : ((store.filter fun r => decide (r.ip_address = ip)).take 1).isEmpty = true := by
    rw [take_one_isEmpty_iff, List.filter_eq_nil_iff]
    intro r hr
    simp [hnone r hr]
  simp only [manageDefenseRulesCore, if_pos hth, if_pos hfil, Bool.false_eq_true, if_false]

theorem core_check_failed (tracker : String → List Int) (store : List StoredRule)
    (insf : Bool) (ip fid pred job : String) (now t : Int)
    (hth : THRESHOLD_COUNT ≤ (recordEvent (tracker ip) t).length) :
    manageDefenseRulesCore tracker store true insf ip fid pred job now t
      = ⟨setKey tracker ip (recordEvent (tracker ip) t), false, none⟩ := by
  simp only [manageDefenseRulesCore, if_pos hth, if_pos rfl, Bool.true_eq_false, if_true]

/-- C1 counterexample: with the tracker one event short of the threshold and a
store holding exactly one rule for the key that is expired and inactive, the
triggering event still creates nothing: the existence check of server.js lines
100-104 matches on `ip_address` alone, so a stale rule also suppresses
creation, contrary to the claim. -/
theorem rule_dedup_counterexample :
    (manageDefenseRules (fun _ => some 0)
        (setKey (fun _ => []) "1.2.3.4" (List.replicate 49 0))
        [{ ip_address := "1.2.3.4", is_active := false, expires_at := -5 }]
        false false
        { src_ip := some "1.2.3.4", timestamp := some "t0" } "DDoS" "job-1" 0).created
        = false
    ∧ (manageDefenseRules (fun _ => some 0)
        (setKey (fun _ => []) "1.2.3.4" (List.replicate 49 0))
        [{ ip_address := "1.2.3.4", is_active := false, expires_at := -5 }]
        false false
        { src_ip := some "1.2.3.4", timestamp := some "t0" } "DDoS" "job-1" 0).attempted
        = none
    ∧ (recordEvent (setKey (fun _ => []) "1.2.3.4" (List.replicate 49 0) "1.2.3.4") 0).length
        = THRESHOLD_COUNT
    ∧ (([{ ip_address := "1.2.3.4", is_active := false, expires_at := -5 }] :
          List StoredRule).all
        fun r => !r.is_active && decide (r.expires_at < 0)) = true := by
  refine ⟨?_, ?_, by decide, by decide⟩ <;> decide

/-- C1 (amended): once the window count reaches the threshold and the existence
check succeeds, rule creation is skipped exactly when the store holds any rule
for the key, active or not; only when the store holds no rule at all for the
key is a DefenseRule inserted, with `expires_at = now + RULE_EXPIRATION_MINUTES`
(in ms), `threat_type` the triggering label, and evidence carrying the
triggering flow id and the window count. -/
theorem rule_dedup_any_existing_rule (parse : String → Option Int)
    (tracker : String → List Int) (store : List StoredRule) (insf : Bool)
    (row : FlowRow) (pred job : String) (now : Int) (ip : String) (t : Int)
    (hip : ipAddressOf row = some ip) (hunk : ip ≠ "UNKNOWN")
    (ht : flowTimeOf parse row = some t)
    (hth : THRESHOLD_COUNT ≤ (recordEvent (tracker ip) t).length) :
    ((∃ r ∈ store, r.ip_address = ip) →
      (manageDefenseRules parse tracker store false insf row pred job now).created = false
      ∧ (manageDefenseRules parse tracker store false insf row pred job now).attempted = none)
    ∧ ((∀ r ∈ store, r.ip_address ≠ ip) →
      (manageDefenseRules parse tracker store false false row pred job now).attempted
          = some { ip_address := ip, threat_type := pred,
                   expires_at := now + RULE_EXPIRATION_MINUTES * 60 * 1000,
                   is_active := true, analysis_id := job,
                   trigger_flow_id := flowIdOf row,
                   threat_count := (recordEvent (tracker ip) t).length }
      ∧ (manageDefenseRules parse tracker store false false row pred job now).created
          = true) := by
  constructor
  · intro hex
    rw [manageDefenseRules_resolved parse tracker store false insf row pred job now
        ip t hip hunk ht,
      core_skip_of_existing tracker store insf ip (flowIdOf row) pred job now t hth hex]
    exact ⟨rfl, rfl⟩
  · intro hnone
    rw [manageDefenseRules_resolved parse tracker store false false row pred job now
        ip t hip hunk ht,
      core_create_of_no_rule tracker store false ip (flowIdOf row) pred job now t hth hnone]
    exact ⟨rfl, rfl⟩

/-- C1 witness: at the counterexample's tracker state but with an empty store,
the fiftieth event does create a rule with the documented fields. -/
theorem rule_dedup_any_existing_rule_witness :
    (manageDefenseRules (fun _ => some 0)
        (setKey (fun _ => []) "1.2.3.4" (List.replicate 49 0)) [] false false
        { src_ip := some "1.2.3.4", timestamp := some "t0" } "DDoS" "job-1" 0).attempted
      = some { ip_address := "1.2.3.4", threat_type := "DDoS",
               expires_at := 0 + RULE_EXPIRATION_MINUTES * 60 * 1000,
               is_active := true, analysis_id := "job-1", trigger_flow_id := "N/A",
               threat_count := (recordEvent
                  (setKey (fun _ => []) "1.2.3.4" (List.replicate 49 0) "1.2.3.4") 0).length }
    ∧ (manageDefenseRules (fun _ => some 0)
        (setKey (fun _ => []) "1.2.3.4" (List.replicate 49 0)) [] false false
        { src_ip := some "1.2.3.4", timestamp := some "t0" } "DDoS" "job-1" 0).created
      = true :=
  (rule_dedup_any_existing_rule (fun _ => some 0)
      (setKey (fun _ => []) "1.2.3.4" (List.replicate 49 0)) [] false
      { src_ip := some "1.2.3.4", timestamp := some "t0" } "DDoS" "job-1" 0
      "1.2.3.4" 0 (by decide) (by decide) (by decide) (by decide)).2
    (by simp)

/-- C5: once the threshold is met and no rule for the key is in the store, a
successful insert removes the key's event sequence from the tracker; a failed
insert leaves the recorded window evidence for the key in place and creates
nothing; a failed existence check also leaves the recorded evidence in place,
attempts no insert and creates nothing. -/
theorem tracker_reset_semantics (parse : String → Option Int)
    (tracker : String → List Int) (store : List StoredRule) (insf : Bool)
    (row : FlowRow) (pred job : String) (now : Int) (ip : String) (t : Int)
    (hip : ipAddressOf row = some ip) (hunk : ip ≠ "UNKNOWN")
    (ht : flowTimeOf parse row = some t)
    (hth : THRESHOLD_COUNT ≤ (recordEvent (tracker ip) t).length)
    (hnone : ∀ r ∈ store, r.ip_address ≠ ip) :
    ((manageDefenseRules parse tracker store false false row pred job now).tracker ip = []
      ∧ (manageDefenseRules parse tracker store false false row pred job now).created = true)
    ∧ ((manageDefenseRules parse tracker store false true row pred job now).tracker ip
          = recordEvent (tracker ip) t
      ∧ (manageDefenseRules parse tracker store false true row pred job now).created = false)
    ∧ ((manageDefenseRules parse tracker store true insf row pred job now).tracker ip
          = recordEvent (tracker ip) t
      ∧ (manageDefenseRules parse tracker store true insf row pred job now).attempted = none
      ∧ (manageDefenseRules parse tracker store true insf row pred job now).created
          = false) := by
  refine ⟨?_, ?_, ?_⟩
  · rw [manageDefenseRules_resolved parse tracker store false false row pred job now
        ip t hip hunk ht,
      core_create_of_no_rule tracker store false ip (flowIdOf row) pred job now t hth hnone]
    exact ⟨by simp [setKey], rfl⟩
  · rw [manageDefenseRules_resolved parse tracker store false true row pred job now
        ip t hip hunk ht,
      core_create_of_no_rule tracker store true ip (flowIdOf row) pred job now t hth hnone]
    exact ⟨by simp [setKey], rfl⟩
  · rw [manageDefenseRules_resolved parse tracker store true insf row pred job now
        ip t hip hunk ht,
      core_check_failed tracker store insf ip (flowIdOf row) pred job now t hth]
    exact ⟨by simp [setKey], rfl, rfl⟩

/-- C5 witness: at a concrete threshold-crossing state with an empty store, the
successful-insert run clears the key and the failed-insert run keeps the fifty
recorded events. -/
theorem tracker_reset_semantics_witness :
    (manageDefenseRules (fun _ => some 0)
        (setKey (fun _ => []) "5.6.7.8" (List.replicate 49 0)) [] false false
        { src_ip := some "5.6.7.8", timestamp := some "t0" } "DDoS" "job-1" 0).tracker
        "5.6.7.8" = []
    ∧ (manageDefenseRules (fun _ => some 0)
        (setKey (fun _ => []) "5.6.7.8" (List.replicate 49 0)) [] false true
        { src_ip := some "5.6.7.8", timestamp := some "t0" } "DDoS" "job-1" 0).tracker
        "5.6.7.8"
      = recordEvent (setKey (fun _ => []) "5.6.7.8" (List.replicate 49 0) "5.6.7.8") 0 :=
  ⟨(tracker_reset_semantics (fun _ => some 0)
      (setKey (fun _ => []) "5.6.7.8" (List.replicate 49 0)) [] false
      { src_ip := some "5.6.7.8", timestamp := some "t0" } "DDoS" "job-1" 0
      "5.6.7.8" 0 (by decide) (by decide) (by decide) (by decide) (by simp)).1.1,
   (tracker_reset_semantics (fun _ => some 0)
      (setKey (fun _ => []) "5.6.7.8" (List.replicate 49 0)) [] false
      { src_ip := some "5.6.7.8", timestamp := some "t0" } "DDoS" "job-1" 0
      "5.6.7.8" 0 (by decide) (by decide) (by decide) (by decide) (by simp)).2.1.1⟩

/-- `List.map` carrying the element index, mirroring the callback index of
JavaScript `Array.prototype.map`. -/
def mapIdxFrom (f : Nat → HFlow → HFlow) : Nat → List HFlow → List HFlow
  | _, [] => []
  | i, a :: as => f i a :: mapIdxFrom f (i + 1) as

/-- `batch.map(({ prediction, analysis_id, ...rest }) => rest)` (server.js line
554): the payload sent to the model strips the label and the job link. -/
def stripForModel (r : HFlow) : HFlow :=
  { r with prediction := none, analysis_id := none }

/-- One re-prediction batch (server.js lines 556-571). On a successful gateway
call every row gets `original_prediction := row.prediction` and
`prediction := predictions[index] || 'Error'`; on a failed call every row of
the batch keeps its prior `prediction` and still records
`original_prediction`. -/
def processBatch (g : List HFlow → Option (List (Option String)))
    (batch : List HFlow) : List HFlow :=
  match g (batch.map stripForModel) with
  | some predictions =>
    mapIdxFrom
      (fun index row =>
        { row with original_prediction := row.prediction,
                   prediction := some (predictionAt predictions index) })
      0 batch
  | none =>
    batch.map fun row => { row with original_prediction := row.prediction }

/-- The re-prediction loop of server.js lines 549-572: fixed-size slices of the
admitted flows, processed in order, results appended. -/
def rePredict (g : List HFlow → Option (List (Option String)))
    (flows : List HFlow) : List HFlow :=
  if h : flows = [] then []
  else
    processBatch g (flows.take BATCH_SIZE) ++ rePredict g (flows.drop BATCH_SIZE)
termination_by flows.length
decreasing_by
  have hpos : 0 < flows.length := List.length_pos.mpr h
  simp only [List.length_drop, BATCH_SIZE]
  omega

/-- Forget the two label fields of a row (used to state that re-prediction
keeps exactly the admitted flows, merely relabelling them). -/
def eraseLabels (r : HFlow) : HFlow :=
  { r with prediction := none, original_prediction := none }

theorem mapIdxFrom_length (f : Nat → HFlow → HFlow) (i : Nat) (l : List HFlow) :
    (mapIdxFrom f i l).length = l.length := by
  induction l generalizing i with
  | nil => rfl
  | cons a as ih => simp [mapIdxFrom, ih]

theorem mapIdxFrom_map_eraseLabels (f : Nat → HFlow → HFlow)
    (hf : ∀ i a, eraseLabels (f i a) = eraseLabels a) (i : Nat) (l : List HFlow) :
    (mapIdxFrom f i l).map eraseLabels = l.map eraseLabels := by
  induction l generalizing i with
  | nil => rfl
  | cons a as ih => simp [mapIdxFrom, ih, hf]

theorem processBatch_length (g : List HFlow → Option (List (Option String)))
    (batch : List HFlow) : (processBatch g batch).length = batch.length := by
  unfold processBatch
  cases g (batch.map stripForModel) <;> simp [mapIdxFrom_length]

theorem processBatch_map_eraseLabels (g : List HFlow → Option (List (Option String)))
    (batch : List HFlow) :
    (processBatch g batch).map eraseLabels = batch.map eraseLabels := by
  unfold processBatch
  cases g (batch.map stripForModel) with
  | none =>
    rw [List.map_map]
    apply List.map_congr_left
    intro a _
    simp [eraseLabels]
  | some predictions =>
    apply mapIdxFrom_map_eraseLabels
    intro i a
    simp [eraseLabels]

theorem rePredict_length_aux (g : List HFlow → Option (List (Option String))) :
    ∀ (n : Nat) (flows : List HFlow), flows.length ≤ n →
      (rePredict g flows).length = flows.length := by
  intro n
  induction n with
  | zero =>
    intro flows hle
    have : flows = [] := by
      cases flows with
      | nil => rfl
      | cons a as => simp at hle
    subst this
    simp [rePredict]
  | succ n ih =>
    intro flows hle
    by_cases h : flows = []
    · subst h
      simp [rePredict]
    · rw [rePredict, dif_neg h]
      have hpos : 0 < flows.length := List.length_pos.mpr h
      rw [List.length_append, processBatch_length,
        ih (flows.drop BATCH_SIZE) (by simp [BATCH_SIZE]; omega)]
      simp [BATCH_SIZE]
      omega

theorem rePredict_map_eraseLabels_aux
    (g : List HFlow → Option (List (Option String))) :
    ∀ (n : Nat) (flows : List HFlow), flows.length ≤ n →
      (rePredict g flows).map eraseLabels = flows.map eraseLabels := by
  intro n
  induction n with
  | zero =>
    intro flows hle
    have : flows = [] := by
      cases flows with
      | nil => rfl
      | cons a as => simp at hle
    subst this
    simp [rePredict]
  | succ n ih =>
    intro flows hle
    by_cases h : flows = []
    · subst h
      simp [rePredict]
    · rw [rePredict, dif_neg h]
      have hpos : 0 < flows.length := List.length_pos.mpr h
      rw [List.map_append, processBatch_map_eraseLabels,
        ih (flows.drop BATCH_SIZE) (by simp [BATCH_SIZE]; omega),
        ← List.map_append, List.take_append_drop]

/-- C6: re-prediction of the admitted flows is total and batch-failure
isolated: the result has exactly one row per admitted flow and the underlying
flows are unchanged (only the two label fields are rewritten); a batch whose
gateway call fails contributes its rows unchanged, each keeping its prior
`prediction` (which then equals its `original_prediction`); and a nonempty
input is always processed as its first fixed-size batch followed by the
remaining batches. -/
theorem repredict_batch_failure_isolation
    (g : List HFlow → Option (List (Option String))) (flows : List HFlow) :
    (rePredict g flows).length = flows.length
    ∧ (rePredict g flows).map eraseLabels = flows.map eraseLabels
    ∧ (∀ batch : List HFlow, g (batch.map stripForModel) = none →
        processBatch g batch
          = batch.map fun row => { row with original_prediction := row.prediction })
    ∧ (flows ≠ [] →
        rePredict g flows
          = processBatch g (flows.take BATCH_SIZE) ++ rePredict g (flows.drop BATCH_SIZE)) := by
  refine ⟨rePredict_length_aux g flows.length flows le_rfl,
    rePredict_map_eraseLabels_aux g flows.length flows le_rfl, ?_, ?_⟩
  · intro batch hfail
    unfold processBatch
    rw [hfail]
  · intro h
    rw [rePredict, dif_neg h]

/-- C6 witness: with a gateway that always fails and two concrete flows, the
result keeps both flows with their prior labels. -/
theorem repredict_batch_failure_isolation_witness :
    (rePredict (fun _ => none)
        [{ src_ip := some "a", prediction := some "ddos" },
         { src_ip := some "b", prediction := some "portscan" }]).length = 2
    ∧ processBatch (fun _ => none)
        [{ src_ip := some "a", prediction := some "ddos" }]
      = [{ src_ip := some "a", prediction := some "ddos",
           original_prediction := some "ddos" }] := by
  constructor
  · simpa using
      (repredict_batch_failure_isolation (fun _ => none)
        [{ src_ip := some "a", prediction := some "ddos" },
         { src_ip := some "b", prediction := some "portscan" }]).1
  · simpa using
      (repredict_batch_failure_isolation (fun _ => none) []).2.2.1
        [{ src_ip := some "a", prediction := some "ddos" }] rfl

/-- `acc[label] = (acc[label] || 0) + 1` on an insertion-ordered counter
object, as built by the reduce calls of the transformers. -/
def bumpCount (acc : List (String × Nat)) (label : String) : List (String × Nat) :=
  if acc.any fun p => decide (p.1 = label) then
    acc.map fun p => if p.1 = label then (p.1, p.2 + 1) else p
  else acc ++ [(label, 1)]

/-- `getPrediction` of analysis-transformer.js:
`(row.prediction || row.original_prediction || "unknown").toLowerCase()`. -/
def dashLabel (r : HFlow) : String :=
  jsToLower ((truthy r.prediction).getD ((truthy r.original_prediction).getD "unknown"))

/-- Membership in `maliciousRows` of `transformPredictionData`. -/
def isMaliciousDash (r : HFlow) : Bool :=
  !(decide (dashLabel r = "benign")) && !(decide (dashLabel r = "error"))
    && !(decide (dashLabel r = "rule_override_blocked"))

/-- The slice of the `transformPredictionData` output that this verification
reaches (the admitted-flows summary): malicious and benign row counts and the
threat breakdown keyed by `row.prediction || 'Unknown Attack'`. The chart
payloads built from the same row sets are display-only and are not modelled. -/
structure DashSummary where
  maliciousCount : Nat
  benignCount : Nat
  threatBreakdown : List (String × Nat)
deriving DecidableEq, Repr

/-- Admitted-flows summary (analysis-transformer.js `transformPredictionData`,
restricted to the fields named in `DashSummary`). -/
def transformPredictionData (rows : List HFlow) : DashSummary :=
  { maliciousCount := (rows.filter fun r => isMaliciousDash r).length
    benignCount := (rows.filter fun r => decide (dashLabel r = "benign")).length
    threatBreakdown :=
      (rows.filter fun r => isMaliciousDash r).foldl
        (fun acc r => bumpCount acc ((truthy r.prediction).getD "Unknown Attack")) [] }

/-- Blocked-flows summary (`transformBlockedData` of analysis-transformer.js):
count, plus the breakdown keyed by
`row.original_prediction || row.prediction || 'Unknown Block'`. -/
structure BlockedSummary where
  blockedCount : Nat
  threatBreakdown : List (String × Nat)
deriving DecidableEq, Repr

def transformBlockedData (blockedRows : List HFlow) : BlockedSummary :=
  { blockedCount := blockedRows.length
    threatBreakdown :=
      blockedRows.foldl
        (fun acc r =>
          bumpCount acc
            ((truthy r.original_prediction).getD ((truthy r.prediction).getD "Unknown Block")))
        [] }

/-- The full payload of the `res.json` call at server.js lines 584-590. -/
structure ReanalyzeFull where
  dashboard : DashSummary
  analysis_id : String
  original_flow_count : Nat
  reanalyzed_flow_count : Nat
  blockedData : BlockedSummary
deriving DecidableEq, Repr

/-- The three observable responses of `POST /reanalyze/rules` (given a present
`analysis_id`): 404 when no stored flows exist (server.js lines 481-483), the
short message-only object when every flow is filtered (lines 542-544), and the
full result object (lines 584-590). -/
inductive ReanalyzeResponse where
  | notFound (error : String)
  | allBlocked (message : String) (analysis_id : String)
  | full (result : ReanalyzeFull)
deriving DecidableEq, Repr

/-- `POST /reanalyze/rules` (server.js lines 471-596). `historicalResults` is
the value of `getAnalysisResultsByJobId` (`none` models its null error
return); `rules`/`now` determine the active-rule fetch of lines 486-490; `g`
is the prediction gateway. -/
def reanalyzeRules (g : List HFlow → Option (List (Option String)))
    (rules : List StoredRule) (now : Int) (analysis_id : String)
    (historicalResults : Option (List HFlow)) : ReanalyzeResponse :=
  match historicalResults with
  | none => .notFound ("No historical data found for ID: " ++ analysis_id)
  | some hist =>
    if hist.length = 0 then
      .notFound ("No historical data found for ID: " ++ analysis_id)
    else
      let flowsToReanalyze := (partitionFlows rules now hist).1
      let blockedFlows := (partitionFlows rules now hist).2
      if flowsToReanalyze.length = 0 then
        .allBlocked "All flows were filtered by active rules." analysis_id
      else
        let rePredictionResults := rePredict g flowsToReanalyze
        .full
          { dashboard := transformPredictionData rePredictionResults
            analysis_id := analysis_id
            original_flow_count := hist.length
            reanalyzed_flow_count := rePredictionResults.length
            blockedData := transformBlockedData blockedFlows }

/-- C4 counterexample: a job with one stored flow whose only flow is blocked by
an active rule yields the short message-only response, not a result carrying
the two summaries and the counts — contrary to the claim's "including the case
where every flow of the job is blocked by policy". -/
theorem reanalyze_all_blocked_counterexample :
    reanalyzeRules (fun _ => none)
        [{ ip_address := "7.7.7.7", is_active := true, expires_at := 10 }] 0 "job-1"
        (some [{ src_ip := some "7.7.7.7", prediction := some "ddos" }])
      = .allBlocked "All flows were filtered by active rules." "job-1"
    ∧ ([{ src_ip := some "7.7.7.7", prediction := some "ddos" }] : List HFlow).length
      = 1 := by
  constructor
  · rfl
  · rfl

/-- C4 (amended): reanalysis responds not-found exactly when the job has no
stored flows (a store error or an empty flow list); for a job whose stored
flows admit at least one flow, the response is the full object carrying the
admitted-flows summary, the blocked-flows summary, the original flow count and
the admitted (re-predicted) flow count; but when every stored flow is blocked
by policy, the response is the short message-only object instead. -/
theorem reanalyze_result_shape (g : List HFlow → Option (List (Option String)))
    (rules : List StoredRule) (now : Int) (aid : String) (hist : List HFlow) :
    reanalyzeRules g rules now aid none
        = .notFound ("No historical data found for ID: " ++ aid)
    ∧ (hist = [] →
        reanalyzeRules g rules now aid (some hist)
          = .notFound ("No historical data found for ID: " ++ aid))
    ∧ (hist ≠ [] → (partitionFlows rules now hist).1 ≠ [] →
        reanalyzeRules g rules now aid (some hist)
          = .full
              { dashboard :=
                  transformPredictionData (rePredict g (partitionFlows rules now hist).1)
                analysis_id := aid
                original_flow_count := hist.length
                reanalyzed_flow_count := (rePredict g (partitionFlows rules now hist).1).length
                blockedData := transformBlockedData (partitionFlows rules now hist).2 })
    ∧ (hist ≠ [] → (partitionFlows rules now hist).1 = [] →
        reanalyzeRules g rules now aid (some hist)
          = .allBlocked "All flows were filtered by active rules." aid) := by
  refine ⟨rfl, ?_, ?_, ?_⟩
  · intro h
    subst h
    rfl
  · intro hne hkeep
    have h0 : ¬ hist.length = 0 := by
      simpa [List.length_eq_zero] using hne
    have h1 : ¬ (partitionFlows rules now hist).1.length = 0 := by
      simpa [List.length_eq_zero] using hkeep
    simp only [reanalyzeRules, if_neg h0, if_neg h1]
  · intro hne hkeep
    have h0 : ¬ hist.length = 0 := by
      simpa [List.length_eq_zero] using hne
    simp [reanalyzeRules, if_neg h0, hkeep, hne]

/-- C4 witness: a job with one stored flow and no active rules produces the
full result object with both summaries and both counts. -/
theorem reanalyze_result_shape_witness :
    reanalyzeRules (fun _ => none) [] 0 "job-2"
        (some [{ src_ip := some "7.7.7.7", prediction := some "ddos" }])
      = .full
          { dashboard :=
              transformPredictionData (rePredict (fun _ => none)
                (partitionFlows [] 0
                  [{ src_ip := some "7.7.7.7", prediction := some "ddos" }]).1)
            analysis_id := "job-2"
            original_flow_count := 1
            reanalyzed_flow_count := (rePredict (fun _ => none)
                (partitionFlows [] 0
                  [{ src_ip := some "7.7.7.7", prediction := some "ddos" }]).1).length
            blockedData :=
              transformBlockedData (partitionFlows [] 0
                [{ src_ip := some "7.7.7.7", prediction := some "ddos" }]).2 } := by
  simpa using
    (reanalyze_result_shape (fun _ => none) [] 0 "job-2"
        [{ src_ip := some "7.7.7.7", prediction := some "ddos" }]).2.2.1
      (by decide) (by decide)

/-- How a successfully inserted rule reads back from the store. -/
def toStored (r : RuleToInsert) : StoredRule :=
  { ip_address := r.ip_address, is_active := r.is_active, expires_at := r.expires_at }

/-- Combined state of the tracker, the rule store and the log of attempted
inserts while a stream of classified rows is fed to `manageDefenseRules`. -/
structure SysState where
  tracker : String → List Int
  store : List StoredRule
  attempts : List RuleToInsert

/-- One classified malicious row processed by `manageDefenseRules` with a
healthy store (both database calls succeed): the tracker advances, a created
rule lands in the store, and every attempted insert is logged. -/
def stepSystem (parse : String → Option Int) (pred job : String) (now : Int)
    (st : SysState) (row : FlowRow) : SysState :=
  let out := manageDefenseRules parse st.tracker st.store false false row pred job now
  { tracker := out.tracker
    store := if out.created then st.store ++ out.attempted.toList.map toStored else st.store
    attempts := st.attempts ++ out.attempted.toList }

/-- Feed a sequence of classified rows to the rule engine in order. -/
def runRules (parse : String → Option Int) (pred job : String) (now : Int) :
    SysState → List FlowRow → SysState
  | st, [] => st
  | st, row :: rest =>
    runRules parse pred job now (stepSystem parse pred job now st row) rest

/-- Two event times in order and within the aggregation window. -/
def winR (a b : Int) : Prop := a ≤ b ∧ b - a ≤ THRESHOLD_WINDOW_MS

instance winR_decidable : DecidableRel winR := fun a b =>
  decidable_of_iff (a ≤ b ∧ b - a ≤ THRESHOLD_WINDOW_MS) Iff.rfl

theorem setKey_same (tr : String → List Int) (ip : String) (v : List Int) :
    setKey tr ip v ip = v := by
  simp [setKey]

theorem setKey_setKey (tr : String → List Int) (ip : String) (v w : List Int) :
    setKey (setKey tr ip v) ip w = setKey tr ip w := by
  funext k
  by_cases h : k = ip <;> simp [setKey, h]

theorem recordEvent_all_kept (acc : List Int) (t : Int)
    (h : ∀ a ∈ acc, winR a t) : recordEvent acc t = acc ++ [t] := by
  unfold recordEvent
  congr 1
  rw [List.filter_eq_self]
  intro a ha
  obtain ⟨h1, h2⟩ := h a ha
  simp
  omega

theorem runRules_append (parse : String → Option Int) (pred job : String)
    (now : Int) (st : SysState) (l₁ l₂ : List FlowRow) :
    runRules parse pred job now st (l₁ ++ l₂)
      = runRules parse pred job now (runRules parse pred job now st l₁) l₂ := by
  induction l₁ generalizing st with
  | nil => rfl
  | cons a as ih => simp [runRules, ih]

theorem stepSystem_low (parse : String → Option Int) (pred job : String)
    (now : Int) (base : String → List Int) (ip : String) (acc : List Int)
    (store : List StoredRule) (att : List RuleToInsert) (row : FlowRow) (t : Int)
    (hip : ipAddressOf row = some ip) (hunk : ip ≠ "UNKNOWN")
    (ht : flowTimeOf parse row = some t)
    (hwin : ∀ a ∈ acc, winR a t)
    (hlen : acc.length + 1 < THRESHOLD_COUNT) :
    stepSystem parse pred job now ⟨setKey base ip acc, store, att⟩ row
      = ⟨setKey base ip (acc ++ [t]), store, att⟩ := by
  unfold stepSystem
  rw [manageDefenseRules_resolved parse (setKey base ip acc) store false false row
      pred job now ip t hip hunk ht]
  unfold manageDefenseRulesCore
  rw [setKey_same, recordEvent_all_kept acc t hwin]
  have hlow : ¬ THRESHOLD_COUNT ≤ (acc ++ [t]).length := by
    simp
    omega
  rw [if_neg hlow]
  simp [setKey_setKey]

theorem runRules_low (parse : String → Option Int) (pred job : String)
    (now : Int) (base : String → List Int) (ip : String)
    (store : List StoredRule) (att : List RuleToInsert)
    (hunk : ip ≠ "UNKNOWN") :
    ∀ (rows : List FlowRow) (times acc : List Int),
      rows.map (flowTimeOf parse) = times.map some →
      (∀ row ∈ rows, ipAddressOf row = some ip) →
      (acc ++ times).Pairwise winR →
      acc.length + times.length < THRESHOLD_COUNT →
      runRules parse pred job now ⟨setKey base ip acc, store, att⟩ rows
        = ⟨setKey base ip (acc ++ times), store, att⟩ := by
  intro rows
  induction rows with
  | nil =>
    intro times acc hmap hip hpair hlen
    have : times = [] := by
      cases times with
      | nil => rfl
      | cons t ts => simp at hmap
    subst this
    simp [runRules]
  | cons row rest ih =>
    intro times acc hmap hip hpair hlen
    cases times with
    | nil => simp at hmap
    | cons t ts =>
      simp only [List.map_cons, List.cons.injEq] at hmap
      obtain ⟨hrow, hrest⟩ := hmap
      have hpair' := List.pairwise_append.mp hpair
      have hwin : ∀ a ∈ acc, winR a t := fun a ha => hpair'.2.2 a ha t (by simp)
      simp only [runRules]
      rw [stepSystem_low parse pred job now base ip acc store att row t
          (hip row (by simp)) hunk hrow hwin
          (by simp at hlen ⊢; omega)]
      have hpair2 : ((acc ++ [t]) ++ ts).Pairwise winR := by
        rw [List.append_assoc]
        exact hpair
      have := ih ts (acc ++ [t]) hrest (fun r hr => hip r (by simp [hr])) hpair2
        (by simp at hlen ⊢; omega)
      simpa [List.append_assoc] using this

theorem stepSystem_cross (parse : String → Option Int) (pred job : String)
    (now : Int) (base : String → List Int) (ip : String) (acc : List Int)
    (store : List StoredRule) (att : List RuleToInsert) (row : FlowRow) (t : Int)
    (hip : ipAddressOf row = some ip) (hunk : ip ≠ "UNKNOWN")
    (ht : flowTimeOf parse row = some t)
    (hwin : ∀ a ∈ acc, winR a t)
    (hlen : acc.length + 1 = THRESHOLD_COUNT)
    (hstore : ∀ r ∈ store, r.ip_address ≠ ip) :
    ∃ rule : RuleToInsert,
      stepSystem parse pred job now ⟨setKey base ip acc, store, att⟩ row
        = ⟨setKey base ip [], store ++ [toStored rule], att ++ [rule]⟩ := by
  refine ⟨{ ip_address := ip, threat_type := pred,
            expires_at := now + RULE_EXPIRATION_MINUTES * 60 * 1000,
            is_active := true, analysis_id := job, trigger_flow_id := flowIdOf row,
            threat_count := (acc ++ [t]).length }, ?_⟩
  unfold stepSystem
  rw [manageDefenseRules_resolved parse (setKey base ip acc) store false false row
      pred job now ip t hip hunk ht]
  unfold manageDefenseRulesCore
  rw [setKey_same, recordEvent_all_kept acc t hwin]
  have hhigh : THRESHOLD_COUNT ≤ (acc ++ [t]).length := by
    simp
    omega
  rw [if_pos hhigh]
  have hfil : ((store.filter fun r => decide (r.ip_address = ip)).take 1).isEmpty = true := by
    rw [take_one_isEmpty_iff, List.filter_eq_nil_iff]
    intro r hr
    simp [hstore r hr]
  simp only [Bool.false_eq_true, if_false, hfil, if_true, if_pos rfl]
  simp [setKey_setKey, toStored]

/-- C8: starting from an empty tracker and a store holding no rule for the
key, a burst of exactly THRESHOLD malicious events for one IP, in order and
pairwise within the window, produces exactly one insert, and none is attempted
before the THRESHOLD-th event; any such burst of fewer than THRESHOLD events
produces no insert attempt at all. -/
theorem burst_rule_creation (parse : String → Option Int) (pred job : String)
    (now : Int) (ip : String) (store : List StoredRule)
    (rows : List FlowRow) (times : List Int)
    (hunk : ip ≠ "UNKNOWN")
    (hip : ∀ row ∈ rows, ipAddressOf row = some ip)
    (hmap : rows.map (flowTimeOf parse) = times.map some)
    (hpair : times.Pairwise winR)
    (hstore : ∀ r ∈ store, r.ip_address ≠ ip) :
    (times.length = THRESHOLD_COUNT →
      (runRules parse pred job now ⟨fun _ => [], store, []⟩ rows).attempts.length = 1
      ∧ (runRules parse pred job now ⟨fun _ => [], store, []⟩
          (rows.take (THRESHOLD_COUNT - 1))).attempts = [])
    ∧ (times.length < THRESHOLD_COUNT →
      (runRules parse pred job now ⟨fun _ => [], store, []⟩ rows).attempts = []) := by
  have hTC : THRESHOLD_COUNT = 50 := rfl
  have hback : setKey (fun _ => ([] : List Int)) ip [] = fun _ => [] := by
    funext k
    simp [setKey]
  have hrowslen : rows.length = times.length := by
    have := congrArg List.length hmap
    simpa using this
  have hpref : ∀ (n : Nat), n < THRESHOLD_COUNT → n ≤ times.length →
      runRules parse pred job now ⟨fun _ => [], store, []⟩ (rows.take n)
        = ⟨setKey (fun _ => []) ip (times.take n), store, []⟩ := by
    intro n hn hle
    have h1 : (rows.take n).map (flowTimeOf parse) = (times.take n).map some := by
      rw [List.map_take, List.map_take, hmap]
    have h2 : ∀ r ∈ rows.take n, ipAddressOf r = some ip :=
      fun r hr => hip r (List.take_subset n rows hr)
    have h3 : (([] : List Int) ++ times.take n).Pairwise winR := by
      simpa using List.Pairwise.sublist (List.take_sublist n times) hpair
    have h4 : ([] : List Int).length + (times.take n).length < THRESHOLD_COUNT := by
      simp only [List.length_nil, List.length_take, Nat.zero_add]
      omega
    have := runRules_low parse pred job now (fun _ => []) ip store [] hunk
      (rows.take n) (times.take n) [] h1 h2 h3 h4
    rw [hback] at this
    simpa using this
  constructor
  · intro h50
    have hn1 : THRESHOLD_COUNT - 1 < THRESHOLD_COUNT := by
      rw [hTC]
      omega
    have hn2 : THRESHOLD_COUNT - 1 ≤ times.length := by
      rw [h50]
      omega
    constructor
    · have hsplit : rows
          = rows.take (THRESHOLD_COUNT - 1) ++ rows.drop (THRESHOLD_COUNT - 1) :=
        (List.take_append_drop _ rows).symm
      rw [hsplit, runRules_append, hpref (THRESHOLD_COUNT - 1) hn1 hn2]
      have hdlen : (rows.drop (THRESHOLD_COUNT - 1)).length = 1 := by
        rw [List.length_drop, hrowslen, h50, hTC]
      have htlen : (times.drop (THRESHOLD_COUNT - 1)).length = 1 := by
        rw [List.length_drop, h50, hTC]
      obtain ⟨rlast, hr⟩ : ∃ r, rows.drop (THRESHOLD_COUNT - 1) = [r] := by
        cases hd : rows.drop (THRESHOLD_COUNT - 1) with
        | nil =>
          rw [hd] at hdlen
          simp at hdlen
        | cons a as =>
          rw [hd] at hdlen
          simp at hdlen
          exact ⟨a, by rw [hdlen]⟩
      obtain ⟨tlast, htl⟩ : ∃ t, times.drop (THRESHOLD_COUNT - 1) = [t] := by
        cases hd : times.drop (THRESHOLD_COUNT - 1) with
        | nil =>
          rw [hd] at htlen
          simp at htlen
        | cons a as =>
          rw [hd] at htlen
          simp at htlen
          exact ⟨a, by rw [htlen]⟩
      have hmaplast : flowTimeOf parse rlast = some tlast := by
        have := congrArg (fun l => l.drop (THRESHOLD_COUNT - 1)) hmap
        simp only [← List.map_drop] at this
        rw [hr, htl] at this
        simpa using this
      have hwinlast : ∀ a ∈ times.take (THRESHOLD_COUNT - 1), winR a tlast := by
        intro a ha
        have hsp : times
            = times.take (THRESHOLD_COUNT - 1) ++ times.drop (THRESHOLD_COUNT - 1) :=
          (List.take_append_drop _ times).symm
        have hp := List.pairwise_append.mp (hsp ▸ hpair)
        refine hp.2.2 a ha tlast ?_
        rw [htl]
        simp
      have hlenlast : (times.take (THRESHOLD_COUNT - 1)).length + 1 = THRESHOLD_COUNT := by
        rw [List.length_take, h50, hTC]
        omega
      have hiplast : ipAddressOf rlast = some ip := by
        refine hip rlast (List.drop_subset (THRESHOLD_COUNT - 1) rows ?_)
        rw [hr]
        simp
      obtain ⟨rule, hrule⟩ := stepSystem_cross parse pred job now (fun _ => []) ip
        (times.take (THRESHOLD_COUNT - 1)) store [] rlast tlast
        hiplast hunk hmaplast hwinlast hlenlast hstore
      rw [hr]
      simp only [runRules]
      rw [hrule]
      simp [runRules]
    · rw [hpref (THRESHOLD_COUNT - 1) hn1 hn2]
  · intro hlt
    have heq : rows.take times.length = rows := by
      rw [← hrowslen]
      exact List.take_length rows
    rw [← heq, hpref times.length hlt le_rfl]

/-- C8 witness: fifty identical-time events for one IP against an empty store
yield exactly one attempted insert, and the first forty-nine alone yield
none. -/
theorem burst_rule_creation_witness :
    (runRules (fun _ => some 0) "DDoS" "job-1" 0 ⟨fun _ => [], [], []⟩
        (List.replicate 50
          ({ src_ip := some "10.0.0.5", timestamp := some "x" } : FlowRow))).attempts.length
      = 1
    ∧ (runRules (fun _ => some 0) "DDoS" "job-1" 0 ⟨fun _ => [], [], []⟩
        ((List.replicate 50
            ({ src_ip := some "10.0.0.5", timestamp := some "x" } : FlowRow)).take
          (THRESHOLD_COUNT - 1))).attempts = [] :=
  (burst_rule_creation (fun _ => some 0) "DDoS" "job-1" 0 "10.0.0.5" []
      (List.replicate 50 { src_ip := some "10.0.0.5", timestamp := some "x" })
      (List.replicate 50 0) (by decide) (by decide) (by decide) (by decide)
      (by decide)).1 (by decide)
